import Mathlib

/-!
Verification of the Herbie AQM model template (`herbie/models/aqm.py`).

The Python template is shallowly embedded below: the run date is a record of
year/month/day/hour fields, the `template` method becomes a function returning
`Except` (the `ValueError` branch becomes `Except.error`), and the xarray
dataset is modelled by its dimension names, the length of its temporal axis,
the names of its data variables, and its attribute mapping.
-/

namespace AQM

/-- The run date (`self.date`): the fields the template reads. -/
structure DateTime where
  year : Nat
  month : Nat
  day : Nat
  hour : Nat
deriving DecidableEq, Repr

/-- Zero-pad the decimal rendering of `n` to width `w` (Python `%Y`, `%m`, `%d`, `%H`). -/
def padNat (w n : Nat) : String :=
  let s := toString n
  if s.length < w then String.mk (List.replicate (w - s.length) (Char.ofNat 48)) ++ s else s

/-- Python formatting of `self.date` with %Y%m%d. -/
def yyyymmdd (d : DateTime) : String :=
  padNat 4 d.year ++ padNat 2 d.month ++ padNat 2 d.day

/-- Python formatting of `self.date` with %H. -/
def hhOf (d : DateTime) : String :=
  padNat 2 d.hour

/-- The first date condition of `aqm.template`:
`self.date.year < 2021 or (self.date.year == 2021 and self.date.month < 7)`. -/
def isV5Date (d : DateTime) : Bool :=
  decide (d.year < 2021) || (decide (d.year = 2021) && decide (d.month < 7))

/-- The second date condition of `aqm.template`:
`self.date.year < 2024 or (year == 2024 and month < 5) or (year == 2024 and month == 5 and day < 14)`. -/
def isV6Date (d : DateTime) : Bool :=
  decide (d.year < 2024) || (decide (d.year = 2024) && decide (d.month < 5))
    || (decide (d.year = 2024) && decide (d.month = 5) && decide (d.day < 14))

/-- The version held by `self.version` after the date checks in `aqm.template`:
the default "v7" is installed when no version attribute exists, then the two
date conditions overwrite it with "v5" or "v6". -/
def resolveVersion (version : Option String) (d : DateTime) : String :=
  let v := version.getD "v7"
  if isV5Date d then "v5"
  else if isV6Date d then "v6"
  else v

/-- `valid_domains = ["CS", "AK", "HI"]` from `aqm.template`. -/
def valid_domains : List String := ["CS", "AK", "HI"]

/-- The rendered text of `ValueError(f"\x27domain\x27 must be one of \x7bvalid_domains\x7d")`. -/
def domainErrorMessage : String :=
  "\x27domain\x27 must be one of [\x27CS\x27, \x27AK\x27, \x27HI\x27]"

/-- The `s3_path` f-strings of `aqm.template`: one branch for "v7", one for the rest. -/
def s3Path (version domain product : String) (d : DateTime) : String :=
  if version = "v7" then
    "AQMv7/" ++ domain ++ "/" ++ yyyymmdd d ++ "/" ++ hhOf d ++ "/aqm.t" ++ hhOf d
      ++ "z." ++ product ++ "." ++ yyyymmdd d ++ ".227.grib2"
  else
    "AQM" ++ version ++ "/" ++ domain ++ "/" ++ yyyymmdd d ++ "/" ++ hhOf d ++ "/aqm.t" ++ hhOf d
      ++ "z." ++ product ++ "." ++ yyyymmdd d ++ ".227.grib2"

/-- `self.SOURCES["aws"]` from `aqm.template`. -/
def sourceURL (version domain product : String) (d : DateTime) : String :=
  "https://noaa-nws-naqfc-pds.s3.amazonaws.com/" ++ s3Path version domain product d

/-- The fields of the template evaluation that the claims read. -/
structure TemplateResult where
  version : String
  domain : String
  sources_aws : String
deriving DecidableEq, Repr

/-- `aqm.template` as a function: `domain`/`version` are `none` when the caller
set no such attribute, the `ValueError` raised on an invalid domain becomes
`Except.error`. The order of steps follows the method: domain defaulting,
version defaulting and date-based overwrite, domain validation, path build. -/
def template (domain version : Option String) (product : String) (d : DateTime) :
    Except String TemplateResult :=
  let dom := domain.getD "CS"
  let ver := resolveVersion version d
  if dom ∈ valid_domains then
    .ok { version := ver, domain := dom, sources_aws := sourceURL ver dom product d }
  else
    .error domainErrorMessage

/-- `s ++ t` of char lists: does `t` begin with `p`? (helper for substring tests). -/
def charsLeadWith : List Char → List Char → Bool
  | [], _ => true
  | _ :: _, [] => false
  | p :: ps, s :: ss => p == s && charsLeadWith ps ss

/-- Python `pat in s` for strings: some suffix of `s` begins with `pat`. -/
def strContains (s pat : String) : Bool :=
  (s.data.tails).any (fun t => charsLeadWith pat.data t)

/-- An xarray attribute value: the module stores strings and one int
(`ds.attrs["time_window"] = int(time_idx)`). -/
inductive AttrVal where
  | str (s : String)
  | int (n : Int)
deriving DecidableEq, Repr

/-- The slice of an xarray `Dataset` the module touches: its dimension names,
the length of its `time` axis, the names of its data variables, and its
attribute mapping. -/
structure Dataset where
  dims : List String
  timeLen : Nat
  vars : List String
  attrs : List (String × AttrVal)
deriving DecidableEq, Repr

/-- Python `ds.attrs[k] = v`: the newest binding shadows older ones. -/
def setAttr (m : List (String × AttrVal)) (k : String) (v : AttrVal) :
    List (String × AttrVal) :=
  (k, v) :: m

/-- Python `ds.attrs.get(k)`: the newest binding for `k`, if any. -/
def getAttr : List (String × AttrVal) → String → Option AttrVal
  | [], _ => none
  | (k2, v) :: rest, k => if k2 = k then some v else getAttr rest k

/-- `ds.isel(time=i)`: the `time` dimension is dropped and the axis collapses
to the selected single entry. -/
def iselTime (ds : Dataset) : Dataset :=
  { ds with dims := ds.dims.filter (fun s => decide (s ≠ "time")), timeLen := 1 }

/-- The window-selection block of `aqm.xarray` for maximum products:
`if "time" in ds.dims and len(ds.time) > 1: time_idx = min(self.fxx, 2, len(ds.time)-1);
ds = ds.isel(time=time_idx); ds.attrs["time_window"] = int(time_idx)`. -/
def selectMaxWindow (fxx : Nat) (ds : Dataset) : Dataset :=
  if "time" ∈ ds.dims ∧ 1 < ds.timeLen then
    let time_idx := min (min fxx 2) (ds.timeLen - 1)
    let ds2 := iselTime ds
    { ds2 with attrs := setAttr ds2.attrs "time_window" (.int time_idx) }
  else ds

/-- The maximum-product branch of `aqm.xarray` after the dataset is opened:
window selection followed by the identifying attributes. -/
def xarrayMax (model product domain : String) (fxx : Nat) (ds : Dataset) : Dataset :=
  let ds2 := selectMaxWindow fxx ds
  { ds2 with
      attrs := setAttr (setAttr (setAttr ds2.attrs "model" (.str model))
        "product" (.str product)) "domain" (.str domain) }

/-- The two branches of `aqm.xarray`: the special max handling, or full
delegation to the superclass for non-max products. -/
inductive XarrayResult where
  | maxSpecial (ds : Dataset)
  | delegated
deriving DecidableEq, Repr

/-- `aqm.xarray` dispatch: `if "max" in self.product` takes the special
branch, everything else delegates unchanged. -/
def aqmXarray (product domain : String) (fxx : Nat) (ds : Dataset) : XarrayResult :=
  if strContains product "max" then .maxSpecial (xarrayMax "aqm" product domain fxx ds)
  else .delegated

/-- `aqm._post_process_dataset`: identifying attributes, then descriptive
attributes per product-substring branch guarded by presence of the expected
variable, then the processing note. -/
def postProcessDataset (product domain version : String) (fxx : Nat) (ds : Dataset) : Dataset :=
  let a := setAttr ds.attrs "model" (.str "aqm")
  let a := setAttr a "product" (.str product)
  let a := setAttr a "domain" (.str domain)
  let a := setAttr a "version" (.str version)
  let a :=
    if strContains product "o3" then
      if strContains product "max" then
        if "OZMAX1" ∈ ds.vars then
          setAttr (setAttr (setAttr a "variable" (.str "OZMAX1")) "units" (.str "ppbV"))
            "description" (.str "Maximum 1-hour ozone")
        else if "OZMAX8" ∈ ds.vars then
          setAttr (setAttr (setAttr a "variable" (.str "OZMAX8")) "units" (.str "ppbV"))
            "description" (.str "Maximum 8-hour ozone")
        else a
      else
        if "ozcon" ∈ ds.vars then
          let b := setAttr (setAttr a "variable" (.str "ozcon")) "units" (.str "ppb")
          if strContains product "1hr" then setAttr b "description" (.str "1-hour average ozone")
          else setAttr b "description" (.str "8-hour average ozone")
        else a
    else if strContains product "pm25" then
      if strContains product "max" then
        if "PMMAX" ∈ ds.vars then
          setAttr (setAttr (setAttr a "variable" (.str "PMMAX")) "units" (.str "µg/m³"))
            "description" (.str "Maximum PM2.5")
        else a
      else
        if "pmtf" ∈ ds.vars then
          let b := setAttr (setAttr a "variable" (.str "pmtf")) "units" (.str "µg/m³")
          if strContains product "1hr" then setAttr b "description" (.str "1-hour average PM2.5")
          else setAttr b "description" (.str "24-hour average PM2.5")
        else a
    else a
  let a := setAttr a "processing"
    (.str ("Processed with Herbie AQM module for forecast hour " ++ toString fxx))
  { ds with attrs := a }

/-- The descriptive metadata rule as the (amended) spec words it: which
(variable, units, description) triple the annotator should install for a given
product code and set of present variables — `none` when the expected variable
of the matched branch is absent or no branch matches. -/
def specDescriptiveAttrs (product : String) (vars : List String) :
    Option (String × String × String) :=
  if strContains product "o3" then
    if strContains product "max" then
      if "OZMAX1" ∈ vars then some ("OZMAX1", "ppbV", "Maximum 1-hour ozone")
      else if "OZMAX8" ∈ vars then some ("OZMAX8", "ppbV", "Maximum 8-hour ozone")
      else none
    else
      if "ozcon" ∈ vars then
        if strContains product "1hr" then some ("ozcon", "ppb", "1-hour average ozone")
        else some ("ozcon", "ppb", "8-hour average ozone")
      else none
  else if strContains product "pm25" then
    if strContains product "max" then
      if "PMMAX" ∈ vars then some ("PMMAX", "µg/m³", "Maximum PM2.5")
      else none
    else
      if "pmtf" ∈ vars then
        if strContains product "1hr" then some ("pmtf", "µg/m³", "1-hour average PM2.5")
        else some ("pmtf", "µg/m³", "24-hour average PM2.5")
      else none
  else none

/-- A value held in the cfgrib `index_keys` mapping, as
`_load_specific_grib_record` inspects it: an int message number or a list of
offsets. -/
inductive PyVal where
  | vint (n : Int)
  | vlist (l : List Int)
deriving DecidableEq, Repr

/-- Python truthiness of such a value (`if not all_offsets`). -/
def pyTruthy : PyVal → Bool
  | .vint n => decide (n ≠ 0)
  | .vlist l => !l.isEmpty

/-- `isinstance(message, int) and message == record_number`. -/
def isRecordMatch (recordNumber : Int) : PyVal → Bool
  | .vint n => n == recordNumber
  | _ => false

/-- The environment `_load_specific_grib_record` runs against: whether building
the cfgrib index raises, the `index_keys` mapping it returns, and the dataset
`xr.open_dataset` yields (`none` when that call raises). -/
structure GribIndexEnv where
  indexRaises : Bool
  indexKeys : List (String × PyVal)
  openResult : Option Dataset
deriving DecidableEq, Repr

/-- `aqm._load_specific_grib_record`: every failure path — an exception while
indexing or opening (the `try` wraps the whole body), an empty/absent offset
list, or no `index_keys` entry matching the record number — prints a note and
returns `None`. -/
def loadSpecificGribRecord (env : GribIndexEnv) (recordNumber : Int) : Option Dataset :=
  if env.indexRaises then none
  else
    let allOffsets := (env.indexKeys.lookup "offset").getD (.vlist [])
    if !(pyTruthy allOffsets) then none
    else
      match env.indexKeys.find? (fun p => isRecordMatch recordNumber p.2) with
      | none => none
      | some _ => env.openResult

end AQM

namespace AQM

lemma getAttr_setAttr (m : List (String × AttrVal)) (k k2 : String) (v : AttrVal) :
    getAttr (setAttr m k v) k2 = if k = k2 then some v else getAttr m k2 := by
  simp [setAttr, getAttr]

lemma s3Path_eq (version domain product : String) (d : DateTime) :
    s3Path version domain product d =
      "AQM" ++ version ++ "/" ++ domain ++ "/" ++ yyyymmdd d ++ "/" ++ hhOf d ++ "/aqm.t"
        ++ hhOf d ++ "z." ++ product ++ "." ++ yyyymmdd d ++ ".227.grib2" := by
  unfold s3Path
  by_cases h : version = "v7"
  · subst h
    simp
  · simp [h]

lemma sourceURL_eq (version domain product : String) (d : DateTime) :
    sourceURL version domain product d =
      "https://noaa-nws-naqfc-pds.s3.amazonaws.com/AQM" ++ version ++ "/" ++ domain ++ "/"
        ++ yyyymmdd d ++ "/" ++ hhOf d ++ "/aqm.t" ++ hhOf d ++ "z." ++ product ++ "."
        ++ yyyymmdd d ++ ".227.grib2" := by
  unfold sourceURL
  rw [s3Path_eq]
  simp only [← String.append_assoc]
  rfl

/-- C1: the claim says every run date strictly before 2021-07-20 resolves to
"v5"; the code comment above the check states the same boundary, but the code
tests only `month < 7`, so 2021-07-10 (a date before 2021-07-20) resolves to
"v6". This theorem evaluates the embedded resolver at that failing input. -/
theorem aqm_C1_version_divergence :
    resolveVersion none ⟨2021, 7, 10, 6⟩ = "v6" ∧ "v6" ≠ "v5" := by
  constructor
  · rfl
  · decide

/-- C3: for every resolved version, domain, product and run date, the built
source URL is exactly the bucket host followed by
AQM(version)/(domain)/(YYYYMMDD)/(HH)/aqm.t(HH)z.(product).(YYYYMMDD).227.grib2;
the literal token "227" sits in the slot a forecast-hour code would occupy
(the builder takes no forecast-hour input at all), and the top directory is
"AQM" followed by the resolved version string. -/
theorem aqm_C3_url_shape (version domain product : String) (d : DateTime) :
    sourceURL version domain product d =
      "https://noaa-nws-naqfc-pds.s3.amazonaws.com/AQM" ++ version ++ "/" ++ domain ++ "/"
        ++ yyyymmdd d ++ "/" ++ hhOf d ++ "/aqm.t" ++ hhOf d ++ "z." ++ product ++ "."
        ++ yyyymmdd d ++ ".227.grib2" :=
  sourceURL_eq version domain product d

/-- C6: the source path builder is a pure function of (domain, resolved
version, product, run date): two invocations on identical inputs return
byte-for-byte identical strings. -/
theorem aqm_C6_deterministic (dom₁ dom₂ ver₁ ver₂ prod₁ prod₂ : String) (d₁ d₂ : DateTime)
    (h : (dom₁, ver₁, prod₁, d₁) = (dom₂, ver₂, prod₂, d₂)) :
    sourceURL ver₁ dom₁ prod₁ d₁ = sourceURL ver₂ dom₂ prod₂ d₂ := by
  injection h with h1 h
  injection h with h2 h
  injection h with h3 h4
  rw [h1, h2, h3, h4]

/-- C2: the claim says an explicitly supplied version is used as-is for every
run date. It is not: the date-based overwrite runs unconditionally, so an
explicit "v7" at run date 2020-01-01 is replaced by "v5" in the result and in
the built path. -/
theorem aqm_C2_counterexample :
    template (some "CS") (some "v7") "ave_1hr_o3" ⟨2020, 1, 1, 6⟩
      = .ok { version := "v5", domain := "CS",
              sources_aws := "https://noaa-nws-naqfc-pds.s3.amazonaws.com/AQMv5/CS/20200101/06/aqm.t06z.ave_1hr_o3.20200101.227.grib2" }
    ∧ ("v5" : String) ≠ "v7" := by
  exact ⟨rfl, by decide⟩

/-- C2 amended: an explicitly supplied version is used as-is — any string,
without validation, spliced literally into the built path — only when the run
date satisfies neither date condition (i.e. falls in the v7 range at or after
2024-05-14 as the code tests it); for earlier run dates the date rule
overwrites the explicit version with "v5" or "v6". -/
theorem aqm_C2_explicit_version (v dom product : String) (d : DateTime)
    (hdom : dom ∈ valid_domains) :
    (isV5Date d = false → isV6Date d = false →
      template (some dom) (some v) product d
        = .ok { version := v, domain := dom,
                sources_aws := "https://noaa-nws-naqfc-pds.s3.amazonaws.com/AQM" ++ v ++ "/"
                  ++ dom ++ "/" ++ yyyymmdd d ++ "/" ++ hhOf d ++ "/aqm.t" ++ hhOf d ++ "z."
                  ++ product ++ "." ++ yyyymmdd d ++ ".227.grib2" })
    ∧ (isV5Date d = true → resolveVersion (some v) d = "v5")
    ∧ (isV5Date d = false → isV6Date d = true → resolveVersion (some v) d = "v6") := by
  refine ⟨?_, ?_, ?_⟩
  · intro h5 h6
    simp only [template, resolveVersion, Option.getD_some, h5, h6, Bool.false_eq_true,
      if_false, if_pos hdom, sourceURL_eq]
  · intro h5
    simp [resolveVersion, h5]
  · intro h5 h6
    simp [resolveVersion, h5, h6]

theorem aqm_C2_explicit_version_witness :
    (("CS" : String) ∈ valid_domains ∧ isV5Date ⟨2025, 1, 2, 6⟩ = false
      ∧ isV6Date ⟨2025, 1, 2, 6⟩ = false)
    ∧ template (some "CS") (some "custom") "ave_1hr_o3" ⟨2025, 1, 2, 6⟩
        = .ok { version := "custom", domain := "CS",
                sources_aws := "https://noaa-nws-naqfc-pds.s3.amazonaws.com/AQMcustom/CS/20250102/06/aqm.t06z.ave_1hr_o3.20250102.227.grib2" } :=
  ⟨⟨by decide, by decide, by decide⟩,
    (((aqm_C2_explicit_version "custom" "CS" "ave_1hr_o3" ⟨2025, 1, 2, 6⟩
      (by decide)).1 rfl rfl).trans (by rfl))⟩

/-- C4: the claim says the domain-validation error message names the offending
value. It does not: the rendered `ValueError` text is a constant that lists
the allowed set but never mentions the rejected value (here "XX"). -/
theorem aqm_C4_counterexample :
    template (some "XX") none "ave_1hr_o3" ⟨2025, 1, 1, 6⟩ = .error domainErrorMessage
    ∧ strContains domainErrorMessage "XX" = false := by
  exact ⟨rfl, by decide⟩

/-- C4 amended: domain validation accepts exactly the members of
["CS", "AK", "HI"]; every other string makes template evaluation fail with a
ValueError whose constant message names the allowed set (each allowed value
occurs in the text) but not the offending value, with no retry and no default
substitution. -/
theorem aqm_C4_domain_validation (s : String) (version : Option String) (product : String)
    (d : DateTime) :
    (s ∈ valid_domains →
      template (some s) version product d
        = .ok { version := resolveVersion version d, domain := s,
                sources_aws := sourceURL (resolveVersion version d) s product d })
    ∧ (s ∉ valid_domains → template (some s) version product d = .error domainErrorMessage)
    ∧ strContains domainErrorMessage "CS" = true
    ∧ strContains domainErrorMessage "AK" = true
    ∧ strContains domainErrorMessage "HI" = true := by
  refine ⟨?_, ?_, by decide, by decide, by decide⟩
  · intro h
    simp [template, h]
  · intro h
    simp [template, h]

theorem aqm_C4_domain_validation_witness :
    (("ZZ" : String) ∉ valid_domains)
    ∧ template (some "ZZ") none "ave_1hr_o3" ⟨2025, 1, 1, 6⟩ = .error domainErrorMessage :=
  ⟨by decide,
    (aqm_C4_domain_validation "ZZ" none "ave_1hr_o3" ⟨2025, 1, 1, 6⟩).2.1 (by decide)⟩

/-- C5: for a max product, `aqm.xarray` takes the special branch; there, when
the opened dataset has a time axis with more than one entry, the selected
window index is min(fxx, 2, lastIndex) — 0 ↦ 0, 1 ↦ 1, and any fxx ≥ 2 ↦ the
last of at most 3 windows — the axis is collapsed and the index is recorded in
the "time_window" attribute; with zero or one entries the selection step
leaves the dataset unchanged, with no error. -/
theorem aqm_C5_max_window (product domain : String) (fxx : Nat) (ds : Dataset)
    (hmax : strContains product "max" = true) :
    aqmXarray product domain fxx ds = .maxSpecial (xarrayMax "aqm" product domain fxx ds)
    ∧ (("time" ∈ ds.dims ∧ 1 < ds.timeLen) →
        getAttr (selectMaxWindow fxx ds).attrs "time_window"
            = some (.int (min (min fxx 2) (ds.timeLen - 1)))
        ∧ "time" ∉ (selectMaxWindow fxx ds).dims
        ∧ (fxx = 0 → min (min fxx 2) (ds.timeLen - 1) = 0)
        ∧ (fxx = 1 → min (min fxx 2) (ds.timeLen - 1) = 1)
        ∧ (2 ≤ fxx → min (min fxx 2) (ds.timeLen - 1) = min 2 (ds.timeLen - 1)))
    ∧ (¬ ("time" ∈ ds.dims ∧ 1 < ds.timeLen) → selectMaxWindow fxx ds = ds) := by
  refine ⟨by simp [aqmXarray, hmax], ?_, ?_⟩
  · intro h
    obtain ⟨ht, hl⟩ := h
    refine ⟨?_, ?_, ?_, ?_, ?_⟩
    · simp [selectMaxWindow, ht, hl, iselTime, getAttr_setAttr]
      omega
    · simp [selectMaxWindow, ht, hl, iselTime]
    · intro h0
      subst h0
      omega
    · intro h1
      subst h1
      omega
    · intro h2
      omega
  · intro h
    simp only [selectMaxWindow, if_neg h]

theorem aqm_C5_max_window_witness :
    (strContains "max_1hr_o3" "max" = true
      ∧ (("time" ∈ (Dataset.mk ["time"] 3 [] []).dims
          ∧ 1 < (Dataset.mk ["time"] 3 [] []).timeLen)))
    ∧ getAttr (selectMaxWindow 5 (Dataset.mk ["time"] 3 [] [])).attrs "time_window"
        = some (.int 2) :=
  ⟨⟨by decide, by decide, by decide⟩,
    (((aqm_C5_max_window "max_1hr_o3" "CS" 5 (Dataset.mk ["time"] 3 [] [])
      (by decide)).2.1 ⟨by decide, by decide⟩).1).trans (by decide)⟩

/-- C10: when no domain is supplied, template evaluation succeeds with the
domain silently defaulted to "CS" (which passes validation), and an error is
produced exactly when an explicitly supplied domain lies outside the allowed
set. -/
theorem aqm_C10_default_domain (dom version : Option String) (product : String) (d : DateTime) :
    template none version product d
      = .ok { version := resolveVersion version d, domain := "CS",
              sources_aws := sourceURL (resolveVersion version d) "CS" product d }
    ∧ ((∃ e, template dom version product d = .error e)
        ↔ (∃ s, dom = some s ∧ s ∉ valid_domains)) := by
  constructor
  · rfl
  · cases dom with
    | none => simp [template, valid_domains]
    | some s =>
        by_cases h : s ∈ valid_domains
        · simp [template, h]
        · simp [template, h]

theorem aqm_C10_default_domain_witness :
    template none none "ave_1hr_o3" ⟨2024, 6, 1, 12⟩
      = .ok { version := "v7", domain := "CS",
              sources_aws := "https://noaa-nws-naqfc-pds.s3.amazonaws.com/AQMv7/CS/20240601/12/aqm.t12z.ave_1hr_o3.20240601.227.grib2" } :=
  ((aqm_C10_default_domain none none "ave_1hr_o3" ⟨2024, 6, 1, 12⟩).1).trans (by rfl)

/-- C7: the claim says units are "ppbV" for every ozone product. They are not:
for the average-ozone product "ave_8hr_o3" with its expected variable "ozcon"
present, the annotator sets units "ppb". -/
theorem aqm_C7_counterexample :
    getAttr (postProcessDataset "ave_8hr_o3" "CS" "v7" 0 (Dataset.mk [] 1 ["ozcon"] [])).attrs
        "units" = some (.str "ppb")
    ∧ AttrVal.str "ppb" ≠ AttrVal.str "ppbV" := by
  exact ⟨by decide, by decide⟩

/-- C7 amended: on a dataset with no prior descriptive attributes, the
annotator sets the variable/units/description attributes if and only if the
expected variable of the matched product branch is present, with units "ppbV" for
maximum-ozone products, "ppb" for average-ozone products, "µg/m³" for PM2.5
products, and the description chosen among the 1-hour/8-hour/24-hour variants
by substring tests on the product code — exactly the triple
`specDescriptiveAttrs` written from the (amended) spec wording. -/
theorem aqm_C7_descriptive_metadata (product domain version : String) (fxx : Nat) (ds : Dataset)
    (hv : getAttr ds.attrs "variable" = none)
    (hu : getAttr ds.attrs "units" = none)
    (hd : getAttr ds.attrs "description" = none) :
    getAttr (postProcessDataset product domain version fxx ds).attrs "variable"
        = (specDescriptiveAttrs product ds.vars).map (fun t => AttrVal.str t.1)
    ∧ getAttr (postProcessDataset product domain version fxx ds).attrs "units"
        = (specDescriptiveAttrs product ds.vars).map (fun t => AttrVal.str t.2.1)
    ∧ getAttr (postProcessDataset product domain version fxx ds).attrs "description"
        = (specDescriptiveAttrs product ds.vars).map (fun t => AttrVal.str t.2.2) := by
  refine ⟨?_, ?_, ?_⟩ <;>
  · simp only [postProcessDataset, specDescriptiveAttrs]
    split_ifs <;> simp [getAttr_setAttr, hv, hu, hd]

theorem aqm_C7_descriptive_metadata_witness :
    (getAttr (Dataset.mk [] 1 ["OZMAX8"] []).attrs "variable" = none
      ∧ getAttr (Dataset.mk [] 1 ["OZMAX8"] []).attrs "units" = none
      ∧ getAttr (Dataset.mk [] 1 ["OZMAX8"] []).attrs "description" = none)
    ∧ getAttr (postProcessDataset "max_8hr_o3" "CS" "v7" 0 (Dataset.mk [] 1 ["OZMAX8"] [])).attrs
        "units" = some (.str "ppbV") :=
  ⟨⟨rfl, rfl, rfl⟩,
    ((aqm_C7_descriptive_metadata "max_8hr_o3" "CS" "v7" 0 (Dataset.mk [] 1 ["OZMAX8"] [])
      rfl rfl rfl).2.1).trans (by decide)⟩

/-- C8: the annotator is a total function (it never raises); it always records
the processing note citing the forecast hour, and when the expected variable of
no branch is present it sets no descriptive attribute — the variable, units and
description attributes read exactly as they did on the input dataset. -/
theorem aqm_C8_annotator_degrades (product domain version : String) (fxx : Nat) (ds : Dataset) :
    getAttr (postProcessDataset product domain version fxx ds).attrs "processing"
        = some (.str ("Processed with Herbie AQM module for forecast hour " ++ toString fxx))
    ∧ (specDescriptiveAttrs product ds.vars = none →
        getAttr (postProcessDataset product domain version fxx ds).attrs "variable"
            = getAttr ds.attrs "variable"
        ∧ getAttr (postProcessDataset product domain version fxx ds).attrs "units"
            = getAttr ds.attrs "units"
        ∧ getAttr (postProcessDataset product domain version fxx ds).attrs "description"
            = getAttr ds.attrs "description") := by
  constructor
  · simp [postProcessDataset, getAttr_setAttr]
  · intro habs
    simp only [specDescriptiveAttrs] at habs
    refine ⟨?_, ?_, ?_⟩ <;>
    · simp only [postProcessDataset]
      split_ifs at habs ⊢ <;> simp_all [getAttr_setAttr]

theorem aqm_C8_annotator_degrades_witness :
    specDescriptiveAttrs "bogus_product" [] = none
    ∧ getAttr (postProcessDataset "bogus_product" "CS" "v7" 3 (Dataset.mk [] 1 [] [])).attrs
        "variable" = getAttr (Dataset.mk [] 1 [] []).attrs "variable" :=
  ⟨by decide,
    ((aqm_C8_annotator_degrades "bogus_product" "CS" "v7" 3 (Dataset.mk [] 1 [] [])).2
      (by decide)).1⟩

/-- C9: every failure inside the specific-record helper — an exception raised
while indexing or opening, an empty or absent offset list, or no index entry
matching the requested record number — yields `none` rather than propagating. -/
theorem aqm_C9_best_effort (env : GribIndexEnv) (rn : Int)
    (h : env.indexRaises = true
      ∨ pyTruthy ((env.indexKeys.lookup "offset").getD (.vlist [])) = false
      ∨ env.indexKeys.find? (fun p => isRecordMatch rn p.2) = none
      ∨ env.openResult = none) :
    loadSpecificGribRecord env rn = none := by
  unfold loadSpecificGribRecord
  rcases h with h | h | h | h
  · simp [h]
  · by_cases h1 : env.indexRaises <;> simp [h1, h]
  · by_cases h1 : env.indexRaises <;>
      by_cases h2 : pyTruthy ((env.indexKeys.lookup "offset").getD (.vlist [])) <;>
        simp [h1, h2, h]
  · by_cases h1 : env.indexRaises <;>
      by_cases h2 : pyTruthy ((env.indexKeys.lookup "offset").getD (.vlist [])) <;>
        rcases h3 : env.indexKeys.find? (fun p => isRecordMatch rn p.2) with _ | p <;>
          simp [h1, h2, h3, h]

theorem aqm_C9_best_effort_witness :
    (GribIndexEnv.mk true [] none).indexRaises = true
    ∧ loadSpecificGribRecord (GribIndexEnv.mk true [] none) 0 = none :=
  ⟨rfl, aqm_C9_best_effort (GribIndexEnv.mk true [] none) 0 (Or.inl rfl)⟩

theorem aqm_C6_deterministic_witness :
    (("CS", "v7", "ave_1hr_o3", (⟨2024, 6, 1, 12⟩ : DateTime))
        = ("CS", "v7", "ave_1hr_o3", (⟨2024, 6, 1, 12⟩ : DateTime)))
    ∧ sourceURL "v7" "CS" "ave_1hr_o3" ⟨2024, 6, 1, 12⟩
        = sourceURL "v7" "CS" "ave_1hr_o3" ⟨2024, 6, 1, 12⟩ :=
  ⟨rfl, aqm_C6_deterministic "CS" "CS" "v7" "v7" "ave_1hr_o3" "ave_1hr_o3"
    ⟨2024, 6, 1, 12⟩ ⟨2024, 6, 1, 12⟩ rfl⟩

end AQM
